import Mathlib

/-!
Shallow embedding of the Washington Climate-Fire Risk dashboard
(`streamlit_dashboard.py`): the data model, the filter engine, the
disaster join, the style resolver, the map-layer builder and the summary
aggregator, followed by proofs settling the specification's claims
against this embedding.  Line numbers in doc comments refer to
`src/streamlit_dashboard.py`.
-/

/-- A calendar date, the shape of a parsed `declarationDate`. -/
structure CalDate where
  year : Nat
  month : Nat
  day : Nat
deriving DecidableEq, Repr

/-- The lexicographic (chronological) order on dates, as a boolean; this is
the order pandas uses when sorting a `datetime64` column. -/
def CalDate.le (a b : CalDate) : Bool :=
  decide (a.year < b.year) ||
    (decide (a.year = b.year) &&
      (decide (a.month < b.month) ||
        (decide (a.month = b.month) && decide (a.day ≤ b.day))))

/-- One row of the Counties table
(`data/WA_Climate_Fire_Dashboard_Data.csv`), with the columns the
dashboard reads. -/
structure County where
  county_fips : Nat
  county : String
  population : Nat
  population_at_risk : Nat
  wui_exposure_pct : ℚ
  climate_fire_risk_score : ℚ
  risk_category : String
  climate_trend : String
deriving DecidableEq, Repr

/-- One row of the FEMA Disasters table
(`data/FEMA_Disasters_Geocoded.csv`); `lat`/`lon` are nullable. -/
structure Disaster where
  disasterNumber : Nat
  county : String
  declarationTitle : String
  declarationDate : CalDate
  lat : Option ℚ
  lon : Option ℚ
deriving DecidableEq, Repr

/-- One GeoJSON feature of `data/wa_counties.geojson`: the `GEOID`
identifier plus the optional interior-point coordinates used for the
county info markers. -/
structure Feature where
  GEOID : String
  INTPTLAT : Option ℚ
  INTPTLON : Option ℚ
deriving DecidableEq, Repr

/-- The sidebar filter parameters of one render pass (lines 99-125). -/
structure FilterParams where
  selected_risk : String
  selected_trend : String
  min_population : Nat
  show_fema_markers : Bool
  fema_year_range : Nat × Nat
deriving DecidableEq, Repr

/-- Lines 127-133: the filter engine.  `filtered_df` starts from the full
table and applies the risk-category equality filter (skipped when the
selection is the sentinel value), then the climate-trend equality filter
(likewise), then the population threshold. -/
def filtered_df (df : List County) (p : FilterParams) : List County :=
  let step1 :=
    if p.selected_risk ≠ "All" then
      df.filter (fun c => c.risk_category == p.selected_risk)
    else df
  let step2 :=
    if p.selected_trend ≠ "All" then
      step1.filter (fun c => c.climate_trend == p.selected_trend)
    else step1
  step2.filter (fun c => decide (p.min_population ≤ c.population))

/-- The brute-force reference filter of spec section 8: a single pass
keeping exactly the rows satisfying the conjunction of the three
predicates, each predicate passing everything when its parameter is the
sentinel value.  Stated from the spec's words, to be compared with
`filtered_df`. -/
def bruteForceFilter (df : List County) (p : FilterParams) : List County :=
  df.filter (fun c =>
    (p.selected_risk == "All" || c.risk_category == p.selected_risk) &&
      ((p.selected_trend == "All" || c.climate_trend == p.selected_trend) &&
        decide (p.min_population ≤ c.population)))

/-- Lines 204-216: the choropleth style resolver, an if/elif chain giving
`(color_scheme, fill_opacity)` from the two selector values.  Opacities
are exact rationals (0.8, 0.6, 0.7). -/
def choroplethStyle (selected_trend selected_risk : String) : String × ℚ :=
  if selected_trend == "Warming & Drying" then ("Reds", 4/5)
  else if selected_trend == "Stable" then ("Greens", 3/5)
  else if selected_risk == "Low" then ("Greens", 3/5)
  else ("YlOrRd", 7/10)

/-- Lines 310-313: the per-county info-marker color, a function of the
risk category alone. -/
def markerColor (risk_category : String) : String :=
  if risk_category == "High" then "darkred"
  else if risk_category == "Moderate" then "orange"
  else "green"

/-- Insert a disaster into an ascending-by-date list, before the first
element whose date is greater than or equal to its own (so that, among
equal dates, earlier input positions stay earlier: a stable ascending
insertion). -/
def insertByDate (d : Disaster) : List Disaster → List Disaster
  | [] => [d]
  | x :: xs =>
    if CalDate.le d.declarationDate x.declarationDate then d :: x :: xs
    else x :: insertByDate d xs

/-- Stable ascending insertion sort by declaration date: the order a
stable ascending pandas argsort produces. -/
def sortByDateAsc : List Disaster → List Disaster
  | [] => []
  | d :: ds => insertByDate d (sortByDateAsc ds)

/-- Line 277: `sort_values('declarationDate', ascending=False)`.  pandas
implements a descending sort as the reverse of the ascending argsort
(`nargsort` computes the ascending indexer and applies `[::-1]` when
`ascending` is false), so records with equal dates come out in reverse
input order. -/
def sort_values_date_desc (ds : List Disaster) : List Disaster :=
  (sortByDateAsc ds).reverse

/-- The descending-by-date top-n selection: `sort_values(...).head(n)`;
the dashboard fixes n = 3 for the county popups (line 277). -/
def recentTop (ds : List Disaster) (n : Nat) : List Disaster :=
  (sort_values_date_desc ds).take n

/-- Line 275: `fema_data[fema_data['County'] == row['County']]` — every
disaster record whose county name equals the given name, from the full
(never year-filtered) table. -/
def county_fema (fema : List Disaster) (countyName : String) : List Disaster :=
  fema.filter (fun d => d.county == countyName)

/-- Line 277: the three most recent disasters of a county. -/
def recent_fires (fema : List Disaster) (countyName : String) : List Disaster :=
  recentTop (county_fema fema countyName) 3

/-- Lines 278-281: one bullet line of the popup fire list,
`f"• {title} ({year})"`. -/
def fireLine (d : Disaster) : String :=
  "• " ++ d.declarationTitle ++ " (" ++ toString d.declarationDate.year ++ ")"

/-- Lines 278-281: the `<br>`-joined recent-fires text of a county popup. -/
def fires_list_of (fema : List Disaster) (countyName : String) : String :=
  String.intercalate "<br>" ((recent_fires fema countyName).map fireLine)

/-- Lines 234-240: the clustered layer's record set — the disasters whose
declaration year lies inside the slider range (inclusive on both bounds,
year only), then `dropna(subset=['lat','lon'])`. -/
def fema_filtered (fema : List Disaster) (yr : Nat × Nat) : List Disaster :=
  (fema.filter (fun d =>
      decide (yr.1 ≤ d.declarationDate.year) &&
        decide (d.declarationDate.year ≤ yr.2))).filter
    (fun d => d.lat.isSome && d.lon.isSome)

/-- One clustered FEMA marker (lines 246-266): position plus the popup
payload fields. -/
structure DisasterPoint where
  lat : ℚ
  lon : ℚ
  declarationTitle : String
  county : String
  declarationDate : CalDate
  disasterNumber : Nat
deriving DecidableEq, Repr

/-- Lines 261-266: the marker built from one disaster row.  The layer is
built after `dropna`, so both coordinates are present and the `getD`
defaults are never reached. -/
def mkDisasterPoint (d : Disaster) : DisasterPoint :=
  { lat := d.lat.getD 0
    lon := d.lon.getD 0
    declarationTitle := d.declarationTitle
    county := d.county
    declarationDate := d.declarationDate
    disasterNumber := d.disasterNumber }

/-- Line 272: the county-to-geometry match of the info-marker loop,
`feature['properties']['GEOID'] == str(int(row['county_fips']))` — the
fips rendered as a plain decimal string, without padding. -/
def markerJoinMatch (f : Feature) (c : County) : Bool :=
  f.GEOID == toString c.county_fips

/-- Lines 270-272 with the trailing `break`: the first geometry feature
whose `GEOID` matches the county, if any. -/
def findFeature (geo : List Feature) (c : County) : Option Feature :=
  geo.find? (fun f => markerJoinMatch f c)

/-- A county fips rendered as a five-digit zero-padded string, the form
of `properties.GEOID` (spec sections 3 and 6). -/
def zeroPad5 (n : Nat) : String :=
  if n < 10 then "0000" ++ toString n
  else if n < 100 then "000" ++ toString n
  else if n < 1000 then "00" ++ toString n
  else if n < 10000 then "0" ++ toString n
  else toString n

/-- Modelled from the spec: the choropleth key matching is performed by
the external folium collaborator on `columns=['county_fips', ...]`
against `key_on='feature.properties.GEOID'` (lines 219-230); per spec
sections 3 and 6 a feature is joined to a county exactly when its GEOID
equals the county's fips as a zero-padded string. -/
def choroplethJoinMatch (f : Feature) (c : County) : Prop :=
  f.GEOID = zeroPad5 c.county_fips

/-- One county info marker (lines 286-315): the county name, the marker
position, the popup's federal-disaster count and recent-fires text, the
risk category and the marker color. -/
structure CountyMarker where
  countyName : String
  location : ℚ × ℚ
  fema_count_county : Nat
  fires_list : String
  risk_category : String
  color : String
deriving DecidableEq, Repr

/-- Lines 273-315: the info marker built for one filtered county and its
matched geometry feature.  When the Disaster table is unavailable the
popup degrades to a zero count and the fixed `"Data not available"`
text (lines 282-284).  The position is the feature's interior point,
defaulted to the state centroid `[47.5, -120.5]` (lines 303-307). -/
def mkCountyMarker (fema : Option (List Disaster)) (c : County) (f : Feature) :
    CountyMarker :=
  { countyName := c.county
    location := (f.INTPTLAT.getD (95/2), f.INTPTLON.getD (-(241/2)))
    fema_count_county :=
      match fema with
      | some fd => (county_fema fd c.county).length
      | none => 0
    fires_list :=
      match fema with
      | some fd => fires_list_of fd c.county
      | none => "Data not available"
    risk_category := c.risk_category
    color := markerColor c.risk_category }

/-- Lines 269-316: the info-marker loop.  Each filtered county is matched
against the geometry features in order; the first match produces a
marker and `break`s; a county with no matching feature falls through the
inner loop producing nothing at all. -/
def buildCountyMarkers (geo : List Feature) (fema : Option (List Disaster))
    (filtered : List County) : List CountyMarker :=
  filtered.filterMap (fun c => (findFeature geo c).map (mkCountyMarker fema c))

/-- Lines 328 and 346: `value_counts()` — each distinct value occurring
in the column, paired with its occurrence count.  (pandas presents the
pairs ordered by descending count; the order of the pairs is a
presentation detail with no bearing on the properties stated here, so
the pairs are listed in first-occurrence order.) -/
def value_counts (l : List String) : List (String × Nat) :=
  l.dedup.map (fun v => (v, l.count v))

/-- Lines 362-385: the column headers of the ranked county table,
including the `Rank` column inserted at position 0.  The
`Federal Disasters` column exists only when the Disaster table loaded
(lines 368-377). -/
def display_columns (femaAvailable : Bool) : List String :=
  if femaAvailable then
    ["Rank", "County", "Risk Score", "Category", "Climate Trend",
     "Population at Risk", "WUI %", "Federal Disasters"]
  else
    ["Rank", "County", "Risk Score", "Category", "Climate Trend",
     "Population at Risk", "WUI %"]

/-- Lines 368-371: the ranked table's per-row federal-disaster count —
a groupby-size on county name, left-merged and `fillna(0)`, which is the
number of disaster records naming that county. -/
def table_fema_counts (fema : List Disaster) (filtered : List County) : List Nat :=
  filtered.map (fun c => (county_fema fema c.county).length)

/-- The outputs of one render pass that the claims talk about. -/
structure Outputs where
  high_risk_metric : Nat
  fema_count_metric : Nat
  wui_population_metric : Nat
  high_wui_risk_metric : Nat
  style : String × ℚ
  clustered : Option (List DisasterPoint)
  countyMarkers : List CountyMarker
  geometryLookupReports : List String
  risk_counts : List (String × Nat)
  trend_counts : List (String × Nat)
  tableColumns : List String
  tableFemaCounts : List Nat
deriving Repr

/-- The full render pass (one execution of the script body for a given
parameter set).  Metric sources follow lines 141-169: the high-risk
count, the population sum and the at-risk sum are all taken from the
full `df`, not from `filtered_df`; the FEMA metric is the Disaster table
length with the fixed fallback 211 (line 149).  The clustered layer is
built only when the checkbox is on and the Disaster table loaded
(line 233).  `geometryLookupReports` is the list of surfaced
geometry-lookup failures: the source's info-marker loop has no logging
or reporting path whatsoever (a county with no matching feature simply
falls through, lines 269-316), so this list is constantly empty. -/
def runDashboard (df : List County) (geo : List Feature)
    (fema : Option (List Disaster)) (p : FilterParams) : Outputs :=
  let filtered := filtered_df df p
  { high_risk_metric := (df.filter (fun c => c.risk_category == "High")).length
    fema_count_metric :=
      match fema with
      | some fd => fd.length
      | none => 211
    wui_population_metric := (df.map County.population).sum
    high_wui_risk_metric := (df.map County.population_at_risk).sum
    style := choroplethStyle p.selected_trend p.selected_risk
    clustered :=
      if p.show_fema_markers then
        match fema with
        | some fd => some ((fema_filtered fd p.fema_year_range).map mkDisasterPoint)
        | none => none
      else none
    countyMarkers := buildCountyMarkers geo fema filtered
    geometryLookupReports := []
    risk_counts := value_counts (filtered.map County.risk_category)
    trend_counts := value_counts (filtered.map County.climate_trend)
    tableColumns := display_columns fema.isSome
    tableFemaCounts :=
      match fema with
      | some fd => table_fema_counts fd filtered
      | none => [] }

/-- A concrete high-risk county used in witnesses and counterexamples. -/
def exCountyHigh : County :=
  { county_fips := 53007
    county := "Chelan"
    population := 79074
    population_at_risk := 60000
    wui_exposure_pct := 75
    climate_fire_risk_score := 72
    risk_category := "High"
    climate_trend := "Warming & Drying" }

/-- A concrete low-risk county used in witnesses and counterexamples. -/
def exCountyLow : County :=
  { county_fips := 53033
    county := "King"
    population := 2252782
    population_at_risk := 100000
    wui_exposure_pct := 5
    climate_fire_risk_score := 30
    risk_category := "Low"
    climate_trend := "Stable" }

/-- A geometry feature matching `exCountyHigh` (GEOID "53007"). -/
def exFeature : Feature :=
  { GEOID := "53007", INTPTLAT := some 47, INTPTLON := some (-120) }

/-- Parameters selecting only the "High" risk category. -/
def exParamsHigh : FilterParams :=
  { selected_risk := "High"
    selected_trend := "All"
    min_population := 0
    show_fema_markers := true
    fema_year_range := (2015, 2024) }

/-- Parameters with every filter at its pass-through value. -/
def exParamsAll : FilterParams :=
  { selected_risk := "All"
    selected_trend := "All"
    min_population := 0
    show_fema_markers := true
    fema_year_range := (2015, 2024) }

/-- Two disasters sharing a declaration date (a sorting tie). -/
def exTieA : Disaster :=
  { disasterNumber := 1
    county := "Chelan"
    declarationTitle := "FIRE A"
    declarationDate := { year := 2020, month := 7, day := 1 }
    lat := none
    lon := none }

/-- The second of the two date-tied disasters. -/
def exTieB : Disaster :=
  { disasterNumber := 2
    county := "Chelan"
    declarationTitle := "FIRE B"
    declarationDate := { year := 2020, month := 7, day := 1 }
    lat := none
    lon := none }

/-- A disaster of 2020 with both coordinates present. -/
def exDisLocated : Disaster :=
  { disasterNumber := 3
    county := "Chelan"
    declarationTitle := "FIRE C"
    declarationDate := { year := 2020, month := 9, day := 8 }
    lat := some 47
    lon := some (-120) }

/-- The non-decreasing-date relation between two disasters (the order of
an ascending sort). -/
def dateLE (a b : Disaster) : Prop :=
  CalDate.le a.declarationDate b.declarationDate = true

/-- The non-increasing-date relation between two disasters (the order of
a descending sort). -/
def dateGE (a b : Disaster) : Prop :=
  CalDate.le b.declarationDate a.declarationDate = true

/-- A skippable equality filter equals a single filter whose predicate is
passed by everything when the selector is the sentinel value. -/
theorem filter_step_eq (df : List County) (sel : String) (get : County → String) :
    (if sel ≠ "All" then df.filter (fun c => get c == sel) else df) =
      df.filter (fun c => (sel == "All") || (get c == sel)) := by
  by_cases h : sel = "All"
  · subst h
    simp
  · rw [if_pos h]
    refine (List.filter_congr ?_)
    intro a _
    rw [beq_eq_false_iff_ne.mpr h, Bool.false_or]

/-- The sequential filter chain of lines 128-133 equals the one-pass
conjunction reference filter of the spec. -/
theorem filtered_df_eq_bruteForce (df : List County) (p : FilterParams) :
    filtered_df df p = bruteForceFilter df p := by
  simp only [filtered_df, bruteForceFilter]
  rw [filter_step_eq df p.selected_risk (fun c => c.risk_category),
    filter_step_eq _ p.selected_trend (fun c => c.climate_trend),
    List.filter_filter, List.filter_filter]
  refine (List.filter_congr ?_)
  intro a _
  cases h1 : (p.selected_risk == "All" || a.risk_category == p.selected_risk) <;>
    cases h2 : (p.selected_trend == "All" || a.climate_trend == p.selected_trend) <;>
      cases h3 : decide (p.min_population ≤ a.population) <;> simp [h1, h2, h3]

/-- C2: for every Counties table and every parameter value, the filter
engine returns exactly the rows satisfying the conjunction of the three
predicates (category equality unless "All", trend equality unless "All",
population at least the threshold); the result is a sublist (hence a
subset) of the input, never a union of the predicates. -/
theorem C2_filter_engine_conjunction (df : List County) (p : FilterParams) :
    filtered_df df p = bruteForceFilter df p ∧
    List.Sublist (filtered_df df p) df ∧
    ∀ c : County, c ∈ filtered_df df p ↔
      c ∈ df ∧ (p.selected_risk = "All" ∨ c.risk_category = p.selected_risk) ∧
        (p.selected_trend = "All" ∨ c.climate_trend = p.selected_trend) ∧
        p.min_population ≤ c.population := by
  refine ⟨filtered_df_eq_bruteForce df p, ?_, ?_⟩
  · rw [filtered_df_eq_bruteForce]
    exact List.filter_sublist df
  · intro c
    rw [filtered_df_eq_bruteForce]
    simp [bruteForceFilter, List.mem_filter, and_assoc]

/-- C2 witness: at a concrete table and concrete parameters, membership in
the filtered result coincides with the conjunction of the predicates. -/
theorem C2_filter_witness :
    exCountyHigh ∈ filtered_df [exCountyHigh, exCountyLow] exParamsHigh :=
  ((C2_filter_engine_conjunction [exCountyHigh, exCountyLow] exParamsHigh).2.2
    exCountyHigh).mpr (by decide)

/-- C1 (amended): all four summary metrics are computed from the
unfiltered full Counties table (and the Disaster table length or its
fallback), so each one is identical under every filter combination. -/
theorem C1_metrics_unfiltered (df : List County) (geo : List Feature)
    (fema : Option (List Disaster)) (p q : FilterParams) :
    (runDashboard df geo fema p).high_risk_metric =
        (df.filter (fun c => c.risk_category == "High")).length ∧
    (runDashboard df geo fema p).wui_population_metric = (df.map County.population).sum ∧
    (runDashboard df geo fema p).high_wui_risk_metric =
        (df.map County.population_at_risk).sum ∧
    (runDashboard df geo fema p).high_risk_metric =
        (runDashboard df geo fema q).high_risk_metric ∧
    (runDashboard df geo fema p).wui_population_metric =
        (runDashboard df geo fema q).wui_population_metric ∧
    (runDashboard df geo fema p).high_wui_risk_metric =
        (runDashboard df geo fema q).high_wui_risk_metric ∧
    (runDashboard df geo fema p).fema_count_metric =
        (runDashboard df geo fema q).fema_count_metric :=
  ⟨rfl, rfl, rfl, rfl, rfl, rfl, rfl⟩

/-- C1 counterexample: with one High and one Low county and the filter set
to "High", the displayed population metric is the full-table population
sum, which differs from the filtered-subset sum the claim asserts. -/
theorem C1_population_metric_counterexample :
    (runDashboard [exCountyHigh, exCountyLow] [] none exParamsHigh).wui_population_metric ≠
      ((filtered_df [exCountyHigh, exCountyLow] exParamsHigh).map County.population).sum := by
  decide

/-- C6: the choropleth style function is total and deterministic and is
evaluated by first-match priority; in particular the warming-trend rule
beats the low-category rule. -/
theorem C6_choropleth_style_rules (t c : String) :
    (t = "Warming & Drying" → choroplethStyle t c = ("Reds", 4/5)) ∧
    (t ≠ "Warming & Drying" → t = "Stable" → choroplethStyle t c = ("Greens", 3/5)) ∧
    (t ≠ "Warming & Drying" → t ≠ "Stable" → c = "Low" →
      choroplethStyle t c = ("Greens", 3/5)) ∧
    (t ≠ "Warming & Drying" → t ≠ "Stable" → c ≠ "Low" →
      choroplethStyle t c = ("YlOrRd", 7/10)) ∧
    choroplethStyle "Warming & Drying" "Low" = ("Reds", 4/5) := by
  refine ⟨?_, ?_, ?_, ?_, rfl⟩
  · intro h
    subst h
    rfl
  · intro _ h
    subst h
    rfl
  · intro h1 h2 h3
    subst h3
    simp [choroplethStyle, beq_eq_false_iff_ne.mpr h1, beq_eq_false_iff_ne.mpr h2]
  · intro h1 h2 h3
    simp [choroplethStyle, beq_eq_false_iff_ne.mpr h1, beq_eq_false_iff_ne.mpr h2,
      beq_eq_false_iff_ne.mpr h3]

/-- C6 witness: the priority rules evaluated at concrete selector values. -/
theorem C6_style_witness : choroplethStyle "Stable" "High" = ("Greens", 3/5) :=
  (C6_choropleth_style_rules "Stable" "High").2.1 (by decide) rfl

/-- The boolean date order, as a proposition. -/
theorem CalDate.le_iff (a b : CalDate) : CalDate.le a b = true ↔
    (a.year < b.year ∨ (a.year = b.year ∧
      (a.month < b.month ∨ (a.month = b.month ∧ a.day ≤ b.day)))) := by
  simp [CalDate.le]

/-- The date order is total. -/
theorem CalDate.le_total_bool (a b : CalDate) :
    CalDate.le a b = true ∨ CalDate.le b a = true := by
  rw [CalDate.le_iff, CalDate.le_iff]
  omega

/-- The date order is transitive. -/
theorem CalDate.le_trans_bool {a b c : CalDate} (h1 : CalDate.le a b = true)
    (h2 : CalDate.le b c = true) : CalDate.le a c = true := by
  rw [CalDate.le_iff] at h1 h2 ⊢
  omega

/-- Membership in an insertion. -/
theorem mem_insertByDate {x d : Disaster} {l : List Disaster} :
    x ∈ insertByDate d l ↔ x = d ∨ x ∈ l := by
  induction l with
  | nil => simp [insertByDate]
  | cons y ys ih =>
    simp only [insertByDate]
    split
    · simp [List.mem_cons]
    · simp only [List.mem_cons, ih]
      tauto

/-- Inserting permutes to consing. -/
theorem insertByDate_perm (d : Disaster) (l : List Disaster) :
    List.Perm (insertByDate d l) (d :: l) := by
  induction l with
  | nil => exact List.Perm.refl _
  | cons x xs ih =>
    simp only [insertByDate]
    split
    · exact List.Perm.refl _
    · exact (ih.cons x).trans (List.Perm.swap d x xs)

/-- The insertion sort permutes its input. -/
theorem sortByDateAsc_perm (l : List Disaster) : List.Perm (sortByDateAsc l) l := by
  induction l with
  | nil => exact List.Perm.refl _
  | cons d ds ih =>
    simp only [sortByDateAsc]
    exact (insertByDate_perm d (sortByDateAsc ds)).trans (ih.cons d)

/-- Insertion preserves ascending sortedness. -/
theorem pairwise_insertByDate {d : Disaster} {l : List Disaster}
    (h : l.Pairwise dateLE) : (insertByDate d l).Pairwise dateLE := by
  induction l with
  | nil => simp [insertByDate, dateLE]
  | cons x xs ih =>
    rw [List.pairwise_cons] at h
    obtain ⟨hx, hxs⟩ := h
    simp only [insertByDate]
    split
    next hle =>
      refine List.pairwise_cons.mpr ⟨?_, List.pairwise_cons.mpr ⟨hx, hxs⟩⟩
      intro y hy
      rcases List.mem_cons.mp hy with rfl | hy2
      · exact hle
      · exact CalDate.le_trans_bool hle (hx y hy2)
    next hle =>
      have hxd : dateLE x d := by
        rcases CalDate.le_total_bool d.declarationDate x.declarationDate with h1 | h1
        · exact absurd h1 hle
        · exact h1
      refine List.pairwise_cons.mpr ⟨?_, ih hxs⟩
      intro y hy
      rcases mem_insertByDate.mp hy with rfl | hy2
      · exact hxd
      · exact hx y hy2

/-- The insertion sort is ascending by date. -/
theorem sortByDateAsc_pairwise (l : List Disaster) :
    (sortByDateAsc l).Pairwise dateLE := by
  induction l with
  | nil => simp [sortByDateAsc]
  | cons d ds ih =>
    simp only [sortByDateAsc]
    exact pairwise_insertByDate ih

/-- C3 (amended): `recentTop(ds, n)` returns at most `n` elements, sorted
non-increasing by declaration date, and every returned element is an
element of the input; the county popup uses it with n = 3.  Records with
equal dates, however, appear in reverse input order — the descending
sort is the reverse of a stable ascending sort — not in input order as
the claim states. -/
theorem C3_recentTop_properties (ds : List Disaster) (n : Nat)
    (fema : List Disaster) (name : String) :
    (recentTop ds n).length ≤ n ∧
    (recentTop ds n).Pairwise dateGE ∧
    (∀ x, x ∈ recentTop ds n → x ∈ ds) ∧
    recent_fires fema name = recentTop (county_fema fema name) 3 := by
  refine ⟨?_, ?_, ?_, rfl⟩
  · exact List.length_take_le n (sort_values_date_desc ds)
  · have hrev : (sort_values_date_desc ds).Pairwise dateGE := by
      rw [sort_values_date_desc, List.pairwise_reverse]
      exact sortByDateAsc_pairwise ds
    exact List.Pairwise.sublist (List.take_sublist n _) hrev
  · intro x hx
    have h0 : x ∈ (sortByDateAsc ds).reverse :=
      List.take_subset n (sort_values_date_desc ds) hx
    exact (sortByDateAsc_perm ds).mem_iff.mp (List.mem_reverse.mp h0)

/-- C3 witness: the membership guarantee applied at a concrete input. -/
theorem C3_recentTop_witness : exTieA ∈ [exTieA, exTieB] :=
  (C3_recentTop_properties [exTieA, exTieB] 3 [] "").2.2.1 exTieA (by decide)

/-- C3 counterexample: two disasters share a declaration date; the code's
descending sort emits them in reverse input order, so the claimed
stable-sort output (input order among ties) is not what is returned. -/
theorem C3_tie_order_counterexample :
    recentTop [exTieA, exTieB] 3 = [exTieB, exTieA] ∧
    recentTop [exTieA, exTieB] 3 ≠ [exTieA, exTieB] := by
  constructor
  · rfl
  · decide

/-- C4 (amended): when the Disaster table is unavailable the pass still
completes with degraded outputs — the FEMA metric shows the fixed
fallback 211, every county popup shows a zero federal-disaster count and
the "Data not available" text — but the ranked table does not carry a
zero-filled federal-disaster column: that column is omitted entirely. -/
theorem C4_disaster_unavailable_degradation (df : List County) (geo : List Feature)
    (p : FilterParams) :
    (runDashboard df geo none p).fema_count_metric = 211 ∧
    (∀ m, m ∈ (runDashboard df geo none p).countyMarkers →
      m.fema_count_county = 0 ∧ m.fires_list = "Data not available") ∧
    "Federal Disasters" ∉ (runDashboard df geo none p).tableColumns ∧
    (runDashboard df geo none p).tableFemaCounts = [] := by
  refine ⟨rfl, ?_, ?_, rfl⟩
  · intro m hm
    simp only [runDashboard, buildCountyMarkers, List.mem_filterMap] at hm
    obtain ⟨c, _, hmk⟩ := hm
    cases hf : findFeature geo c with
    | none => rw [hf] at hmk; simp at hmk
    | some f =>
      rw [hf] at hmk
      simp only [Option.map_some'] at hmk
      obtain rfl := Option.some.inj hmk
      exact ⟨rfl, rfl⟩
  · show "Federal Disasters" ∉ display_columns false
    decide

/-- C4 witness: the degraded popup fields at a concrete county whose
marker is actually produced by the pass. -/
theorem C4_degradation_witness :
    (mkCountyMarker none exCountyHigh exFeature).fema_count_county = 0 ∧
    (mkCountyMarker none exCountyHigh exFeature).fires_list = "Data not available" :=
  (C4_disaster_unavailable_degradation [exCountyHigh] [exFeature] exParamsAll).2.1
    (mkCountyMarker none exCountyHigh exFeature) (by decide)

/-- C4 counterexample: the federal-disaster column of the ranked table
exists when the Disaster table loaded and is absent — not zero-filled —
when it did not. -/
theorem C4_table_column_counterexample :
    "Federal Disasters" ∈
      (runDashboard [exCountyHigh] [exFeature] (some [exTieA]) exParamsAll).tableColumns ∧
    "Federal Disasters" ∉
      (runDashboard [exCountyHigh] [exFeature] none exParamsAll).tableColumns := by
  constructor
  · decide
  · decide

/-- C5: the federal-disaster count of a county popup equals the number of
records of the full Disaster table naming that county, and the county
markers — popups included — are invariant under every choice of the
year range; the clustered point layer's record count is monotone: a
narrower year range never yields more points. -/
theorem C5_county_count_invariant (df : List County) (geo : List Feature)
    (fd : List Disaster) (p : FilterParams) (yr : Nat × Nat) :
    (runDashboard df geo (some fd) { p with fema_year_range := yr }).countyMarkers =
      (runDashboard df geo (some fd) p).countyMarkers ∧
    (∀ m, m ∈ (runDashboard df geo (some fd) p).countyMarkers →
      m.fema_count_county = (fd.filter (fun d => d.county == m.countyName)).length) ∧
    (∀ yr1 yr2 : Nat × Nat, yr2.1 ≤ yr1.1 → yr1.2 ≤ yr2.2 →
      (fema_filtered fd yr1).length ≤ (fema_filtered fd yr2).length) := by
  refine ⟨rfl, ?_, ?_⟩
  · intro m hm
    simp only [runDashboard, buildCountyMarkers, List.mem_filterMap] at hm
    obtain ⟨c, _, hmk⟩ := hm
    cases hf : findFeature geo c with
    | none => rw [hf] at hmk; simp at hmk
    | some f =>
      rw [hf] at hmk
      simp only [Option.map_some'] at hmk
      obtain rfl := Option.some.inj hmk
      simp [mkCountyMarker, county_fema]
  · intro yr1 yr2 h1 h2
    simp only [fema_filtered, List.filter_filter]
    rw [← List.countP_eq_length_filter, ← List.countP_eq_length_filter]
    refine List.countP_mono_left ?_
    intro d _ hd
    simp only [Bool.and_eq_true, decide_eq_true_eq] at hd ⊢
    exact ⟨hd.1, by omega, by omega⟩

/-- C5 witness: the monotonicity of the clustered layer's count applied
at a concrete table and nested concrete year ranges. -/
theorem C5_monotone_witness :
    (fema_filtered [exDisLocated, exTieA] (2019, 2021)).length ≤
      (fema_filtered [exDisLocated, exTieA] (2015, 2024)).length :=
  (C5_county_count_invariant [exCountyHigh] [exFeature] [exDisLocated, exTieA]
    exParamsAll (2015, 2024)).2.2 (2019, 2021) (2015, 2024) (by decide) (by decide)

/-- The info-marker loop emits markers exactly for the filtered counties
that have a matching geometry feature, in input order. -/
theorem buildCountyMarkers_names (geo : List Feature) (fema : Option (List Disaster)) :
    ∀ l : List County, (buildCountyMarkers geo fema l).map CountyMarker.countyName =
      (l.filter (fun c => (findFeature geo c).isSome)).map County.county := by
  intro l
  induction l with
  | nil => rfl
  | cons c cs ih =>
    cases hf : findFeature geo c with
    | none =>
      simp only [buildCountyMarkers, List.filterMap_cons, List.filter_cons, hf,
        Option.map_none', Option.isSome_none, Bool.false_eq_true, if_false] at ih ⊢
      exact ih
    | some f =>
      simp only [buildCountyMarkers, List.filterMap_cons, List.filter_cons, hf,
        Option.map_some', Option.isSome_some, if_true, List.map_cons] at ih ⊢
      rw [ih]
      exact rfl

/-- C7 (amended): a filtered county with no matching geometry feature is
silently skipped — the pass surfaces no report of the lookup failure —
and the only effect on the output is that this county's info marker is
omitted: the emitted markers are exactly those of the filtered counties
whose geometry lookup succeeds, in order. -/
theorem C7_geometry_lookup_silent (df : List County) (geo : List Feature)
    (fema : Option (List Disaster)) (p : FilterParams) :
    (runDashboard df geo fema p).geometryLookupReports = [] ∧
    (runDashboard df geo fema p).countyMarkers.map CountyMarker.countyName =
      ((filtered_df df p).filter (fun c => (findFeature geo c).isSome)).map
        County.county :=
  ⟨rfl, buildCountyMarkers_names geo fema (filtered_df df p)⟩

/-- C7 counterexample: a concrete pass in which a filtered county has no
matching geometry feature; nothing is surfaced (the report list is
empty) and the county's marker is simply missing. -/
theorem C7_unreported_lookup_counterexample :
    exCountyHigh ∈ filtered_df [exCountyHigh] exParamsAll ∧
    findFeature [] exCountyHigh = none ∧
    (runDashboard [exCountyHigh] [] (some [exTieA]) exParamsAll).geometryLookupReports
      = [] ∧
    (runDashboard [exCountyHigh] [] (some [exTieA]) exParamsAll).countyMarkers = [] :=
  ⟨by decide, rfl, rfl, rfl⟩

/-- C8: the clustered disaster layer exists exactly when the marker
checkbox is on and disaster data is loaded; it holds exactly the
records whose declaration year lies in the range (inclusive on both
bounds, year only) and whose two coordinates are present; a record with
a missing coordinate is excluded from the point layer but still belongs
to the county-level aggregation subset. -/
theorem C8_clustered_layer (df : List County) (geo : List Feature)
    (fema : Option (List Disaster)) (p : FilterParams) :
    ((runDashboard df geo fema p).clustered.isSome ↔
      (p.show_fema_markers = true ∧ fema.isSome = true)) ∧
    (∀ fd, fema = some fd → p.show_fema_markers = true →
      (runDashboard df geo fema p).clustered =
        some ((fema_filtered fd p.fema_year_range).map mkDisasterPoint)) ∧
    (∀ (fd : List Disaster) (d : Disaster) (yr : Nat × Nat),
      d ∈ fema_filtered fd yr ↔
        (d ∈ fd ∧ yr.1 ≤ d.declarationDate.year ∧ d.declarationDate.year ≤ yr.2 ∧
          d.lat.isSome = true ∧ d.lon.isSome = true)) ∧
    (∀ (fd : List Disaster) (d : Disaster) (yr : Nat × Nat),
      d.lat = none ∨ d.lon = none → d ∉ fema_filtered fd yr) ∧
    (∀ (fd : List Disaster) (d : Disaster) (name : String), d ∈ fd → d.county = name →
      d ∈ county_fema fd name) := by
  refine ⟨?_, ?_, ?_, ?_, ?_⟩
  · simp only [runDashboard]
    cases hs : p.show_fema_markers <;> cases fema <;> simp [hs]
  · intro fd hfd hs
    subst hfd
    simp [runDashboard, hs]
  · intro fd d yr
    simp only [fema_filtered, List.mem_filter, Bool.and_eq_true, decide_eq_true_eq]
    tauto
  · intro fd d yr h hmem
    simp only [fema_filtered, List.mem_filter, Bool.and_eq_true] at hmem
    rcases h with h | h <;> rw [h] at hmem <;> simp at hmem
  · intro fd d name hd hname
    simp only [county_fema, List.mem_filter]
    exact ⟨hd, by simp [hname]⟩

/-- C8 witness: a coordinate-less record is absent from the clustered
layer's record set but present in its county's aggregation subset. -/
theorem C8_clustered_witness :
    exTieA ∈ county_fema [exTieA] "Chelan" ∧
    exTieA ∉ fema_filtered [exTieA] (2015, 2024) :=
  ⟨(C8_clustered_layer [] [] (some [exTieA]) exParamsAll).2.2.2.2 [exTieA] exTieA
      "Chelan" (by decide) rfl,
    (C8_clustered_layer [] [] (some [exTieA]) exParamsAll).2.2.2.1 [exTieA] exTieA
      (2015, 2024) (Or.inl rfl)⟩

/-- C9: under the five-digit FIPS invariant, the source's info-marker
join predicate (GEOID equals the fips rendered by `str`) coincides with
the zero-padded-string match — which is the choropleth keying — and the
geometry lookup searches by that same zero-padded match. -/
theorem C9_join_zero_padded (c : County) (f : Feature) (geo : List Feature)
    (h5 : 10000 ≤ c.county_fips) :
    ((markerJoinMatch f c = true) ↔ choroplethJoinMatch f c) ∧
    findFeature geo c = geo.find? (fun g => g.GEOID == zeroPad5 c.county_fips) := by
  have hpad : zeroPad5 c.county_fips = toString c.county_fips := by
    have h1 : ¬ c.county_fips < 10 := by omega
    have h2 : ¬ c.county_fips < 100 := by omega
    have h3 : ¬ c.county_fips < 1000 := by omega
    have h4 : ¬ c.county_fips < 10000 := by omega
    simp [zeroPad5, h1, h2, h3, h4]
  constructor
  · simp only [markerJoinMatch, choroplethJoinMatch, hpad]
    exact beq_iff_eq
  · simp only [findFeature]
    congr 1
    funext g
    simp only [markerJoinMatch, hpad]

/-- C9 witness: the join coincidence at a concrete five-digit county and
its feature. -/
theorem C9_join_witness :
    (markerJoinMatch exFeature exCountyHigh = true) ↔
      choroplethJoinMatch exFeature exCountyHigh :=
  (C9_join_zero_padded exCountyHigh exFeature [] (by decide)).1

/-- Membership in a `value_counts` table. -/
theorem mem_value_counts (l : List String) (v : String) (n : Nat) :
    (v, n) ∈ value_counts l ↔ (v ∈ l ∧ n = l.count v) := by
  simp only [value_counts, List.mem_map, List.mem_dedup, Prod.mk.injEq]
  constructor
  · rintro ⟨a, ha, rfl, rfl⟩
    exact ⟨ha, rfl⟩
  · rintro ⟨hv, rfl⟩
    refine ⟨v, hv, rfl, rfl⟩

/-- C10: each of the two histograms contains exactly the distinct values
occurring in the filtered subset, each paired with its positive
occurrence count; a value with zero occurrences in the filtered subset
does not appear. -/
theorem C10_histograms (df : List County) (geo : List Feature)
    (fema : Option (List Disaster)) (p : FilterParams) (v : String) (n : Nat) :
    ((v, n) ∈ (runDashboard df geo fema p).risk_counts ↔
      (v ∈ (filtered_df df p).map County.risk_category ∧
        n = ((filtered_df df p).map County.risk_category).count v)) ∧
    ((v, n) ∈ (runDashboard df geo fema p).trend_counts ↔
      (v ∈ (filtered_df df p).map County.climate_trend ∧
        n = ((filtered_df df p).map County.climate_trend).count v)) ∧
    ((v, n) ∈ (runDashboard df geo fema p).risk_counts → 0 < n) ∧
    ((v, n) ∈ (runDashboard df geo fema p).trend_counts → 0 < n) := by
  have h1 := mem_value_counts ((filtered_df df p).map County.risk_category) v n
  have h2 := mem_value_counts ((filtered_df df p).map County.climate_trend) v n
  refine ⟨h1, h2, ?_, ?_⟩
  · intro hm
    obtain ⟨hv, rfl⟩ := h1.mp hm
    exact List.count_pos_iff.mpr hv
  · intro hm
    obtain ⟨hv, rfl⟩ := h2.mp hm
    exact List.count_pos_iff.mpr hv

/-- C10 witness: a concrete filtered pass whose risk histogram holds the
one occurring category with count one. -/
theorem C10_histogram_witness :
    ("High", 1) ∈ (runDashboard [exCountyHigh] [] none exParamsAll).risk_counts :=
  ((C10_histograms [exCountyHigh] [] none exParamsAll "High" 1).1).mpr (by decide)
